import Mathlib

/-!
Verification development for the storefront checkout pipeline
(`src/APP/src/screens/CartPage.js`, `src/APP/src/screens/MarketPage.js`).

The checkout handler `handleCheckout` of CartPage.js is embedded as a pure
function of the results returned by its external collaborators
(payment-intent provider, processor SDK init/present, order API) and of the
cart snapshot.  It produces the ordered trace of observable actions the JS
code performs (loading-flag writes, network calls, alert displays), an
outcome classification matching the branch that ran, and the alert
configuration left visible, whose buttons carry the effect lists of their
JS `onPress` callbacks.
-/

/-- A cart line item as consumed by CartPage.js / MarketPage.js
(`_id`, `name` shown on MarketPage, `examName`, `subjectName`,
`subjectCode`, `price`, `image`).  The JS `price` is a decimal carried as a
string/number; it is modelled as an exact rational here (see `totalPrice`
for the caveat about JS binary floats). -/
structure CartItem where
  idStr : String
  name : String
  examName : String
  subjectName : String
  subjectCode : String
  price : Rat
  image : String
deriving DecidableEq, Repr

/-- An error record returned by the Stripe payment-sheet SDK
(`initPaymentSheet` / `presentPaymentSheet` return `{ error? }`); the code
reads `error.message`, and errors also carry a code distinguishing e.g.
user cancellation. -/
structure StripeError where
  code : String
  message : String
deriving DecidableEq, Repr

/-- The normalized order-API response consumed by CartPage.js:
`{ success: bool, data?: Order, message?: string }`.  `hasData` models the
JS truthiness of `response.data`; `message` is `""` when absent (JS falsy,
so `response.message || fallback` picks the fallback). -/
structure OrderResponse where
  success : Bool
  hasData : Bool
  message : String
deriving DecidableEq, Repr

/-- One element of `orderData.orderItems` as built in CartPage.js
`handleCheckout`: `{ product: item._id, examName, subjectName, subjectCode,
price, image, quantity: 1 }`. -/
structure OrderItemDraft where
  product : String
  examName : String
  subjectName : String
  subjectCode : String
  price : Rat
  image : String
  quantity : Nat
deriving DecidableEq, Repr

/-- The order draft submitted to `api.createOrder` in CartPage.js:
`orderItems`, `totalPrice`, `paymentMethod: 'Card'`, `isPaid: true`,
`paidAt: new Date()` (modelled as the boolean `paidAtSet`), and
`paymentResult: { clientSecret }`. -/
structure OrderData where
  orderItems : List OrderItemDraft
  totalPrice : Rat
  paymentMethod : String
  isPaid : Bool
  paidAtSet : Bool
  paymentClientSecret : String
deriving DecidableEq, Repr

/-- An effect run by an alert-button `onPress` callback or by the alert
`onClose` callback in CartPage.js: hide the alert
(`setAlertVisible(false)`), clear the cart (`clearCart()`), or navigate
(`navigation.navigate(screen)`). -/
inductive Effect where
  | hideAlert : Effect
  | clearCartEff : Effect
  | navigateEff : String → Effect
deriving DecidableEq, Repr

/-- A button passed to CustomAlert: a label and the effect list of its
`onPress` callback. -/
structure AlertButton where
  text : String
  effects : List Effect
deriving DecidableEq, Repr

/-- The CustomAlert configuration set by CartPage.js / MarketPage.js before
`setAlertVisible(true)`: title, message, icon, buttons, and the effects of
the `onClose` callback (always `() => setAlertVisible(false)` in both
screens). -/
structure AlertCfg where
  title : String
  message : String
  icon : String
  buttons : List AlertButton
  onCloseEffects : List Effect
deriving DecidableEq, Repr

/-- An observable action performed during (or after) a checkout attempt, in
program order: a write to the `loading` flag, a call to the payment-intent
provider, to `initPaymentSheet`, to `presentPaymentSheet`, to
`api.createOrder`, an alert display (`setAlertVisible(true)`), a
`clearCart()` call, or a navigation. -/
inductive Ev where
  | setLoading : Bool → Ev
  | fetchIntent : Rat → Ev
  | initSheet : String → String → Ev
  | presentSheet : Ev
  | createOrder : OrderData → Ev
  | showAlert : AlertCfg → Ev
  | clearCartEv : Ev
  | navigateEv : String → Ev
deriving DecidableEq, Repr

/-- The failure taxonomy of the checkout pipeline, one constructor per
return path of `handleCheckout` in CartPage.js. -/
inductive FailKind where
  | emptyCart : FailKind
  | intentUnavailable : FailKind
  | processorInitError : FailKind
  | processorPresentError : FailKind
  | orderPersistError : FailKind
deriving DecidableEq, Repr

/-- Terminal outcome of one checkout attempt. -/
inductive Outcome where
  | succeeded : Outcome
  | failed : FailKind → String → Outcome
deriving DecidableEq, Repr

/-- Result of one run of `handleCheckout`: the ordered trace of observable
actions of the attempt itself, the outcome classification, and the alert
left visible when the attempt returns (`none` when no alert was shown). -/
structure CheckoutResult where
  events : List Ev
  outcome : Outcome
  alert : Option AlertCfg
deriving DecidableEq, Repr

/-- Round a rational to 2 decimal places (half up).  CartPage.js computes
`cartItems.reduce((sum, item) => sum + parseFloat(item.price), 0)
.toFixed(2)` in JS binary floating point; this model performs the exact
decimal computation instead, so claims about the float/decimal distinction
are not settled against it. -/
def round2 (q : Rat) : Rat :=
  (((q * 100 + 1 / 2).floor : Int) : Rat) / 100

/-- The `totalPrice` value of CartPage.js (lines 44-46): the sum of the
item prices over the current cart snapshot, displayed to 2 decimals; it is
recomputed from `cartItems` on every render, never cached. -/
def totalPrice (cart : List CartItem) : Rat :=
  round2 ((cart.map (fun item => item.price)).sum)

/-- The `orderData` draft built in CartPage.js `handleCheckout` after the
payment sheet was presented without error. -/
def buildOrderData (cart : List CartItem) (clientSecret : String) : OrderData :=
  { orderItems := cart.map (fun item =>
      { product := item.idStr
        examName := item.examName
        subjectName := item.subjectName
        subjectCode := item.subjectCode
        price := item.price
        image := item.image
        quantity := 1 })
    totalPrice := totalPrice cart
    paymentMethod := "Card"
    isPaid := true
    paidAtSet := true
    paymentClientSecret := clientSecret }

/-- The single-button list `[{ text: 'OK', onPress: () => setAlertVisible(false) }]`
used by every failure alert in CartPage.js. -/
def okDismiss : List AlertButton :=
  [{ text := "OK", effects := [Effect.hideAlert] }]

/-- The empty-cart alert of CartPage.js. -/
def emptyCartAlert : AlertCfg :=
  { title := "Cart Empty"
    message := "Your cart is empty. Add items before checkout."
    icon := "cart-outline"
    buttons := okDismiss
    onCloseEffects := [Effect.hideAlert] }

/-- The payment-failure alert of CartPage.js, shown for both
`initPaymentSheet` and `presentPaymentSheet` errors with the SDK message. -/
def paymentFailedAlert (msg : String) : AlertCfg :=
  { title := "Payment Failed"
    message := msg
    icon := "cart-outline"
    buttons := okDismiss
    onCloseEffects := [Effect.hideAlert] }

/-- The success alert of CartPage.js: its OK button hides the alert, clears
the cart, and navigates to PurchaseHistory — in that order; its `onClose`
only hides the alert. -/
def orderPlacedAlert : AlertCfg :=
  { title := "Order Placed"
    message := "You have successfully purchased the products in your cart. Check your purchase history for details."
    icon := "checkmark-circle"
    buttons := [{ text := "OK"
                  effects := [Effect.hideAlert, Effect.clearCartEff,
                              Effect.navigateEff "PurchaseHistory"] }]
    onCloseEffects := [Effect.hideAlert] }

/-- The checkout-failure alert of CartPage.js catch block. -/
def checkoutFailedAlert (msg : String) : AlertCfg :=
  { title := "Checkout Failed"
    message := msg
    icon := "close-circle"
    buttons := okDismiss
    onCloseEffects := [Effect.hideAlert] }

/-- The `handleCheckout` function of CartPage.js (lines 89-192), embedded
over the results its awaited collaborators return on this attempt:
`intentRes` is what `fetchPaymentIntent(totalPrice)` resolves to (`none`
models a null/absent secret; the JS guard `if (!clientSecret)` also treats
the empty string as absent), `initRes` / `presentRes` are the `error?`
fields of `initPaymentSheet` / `presentPaymentSheet` (`none` = no error),
and `resp` is the `api.createOrder` response.  The trace records the
actions in the order the JS statements execute them: `setLoading(true)`
first, validation, the network/SDK calls, the alert display of the branch
taken, and `setLoading(false)` on every return path. -/
def handleCheckout (intentRes : Option String) (initRes : Option StripeError)
    (presentRes : Option StripeError) (resp : OrderResponse)
    (cart : List CartItem) : CheckoutResult :=
  if cart.length = 0 then
    { events := [Ev.setLoading true, Ev.showAlert emptyCartAlert, Ev.setLoading false]
      outcome := Outcome.failed FailKind.emptyCart "Your cart is empty. Add items before checkout."
      alert := some emptyCartAlert }
  else
    match intentRes with
    | none =>
      { events := [Ev.setLoading true, Ev.fetchIntent (totalPrice cart), Ev.setLoading false]
        outcome := Outcome.failed FailKind.intentUnavailable ""
        alert := none }
    | some clientSecret =>
      if clientSecret = "" then
        { events := [Ev.setLoading true, Ev.fetchIntent (totalPrice cart), Ev.setLoading false]
          outcome := Outcome.failed FailKind.intentUnavailable ""
          alert := none }
      else
        match initRes with
        | some initError =>
          { events := [Ev.setLoading true, Ev.fetchIntent (totalPrice cart),
                       Ev.initSheet clientSecret "Your App Name",
                       Ev.showAlert (paymentFailedAlert initError.message),
                       Ev.setLoading false]
            outcome := Outcome.failed FailKind.processorInitError initError.message
            alert := some (paymentFailedAlert initError.message) }
        | none =>
          match presentRes with
          | some paymentError =>
            { events := [Ev.setLoading true, Ev.fetchIntent (totalPrice cart),
                         Ev.initSheet clientSecret "Your App Name",
                         Ev.presentSheet,
                         Ev.showAlert (paymentFailedAlert paymentError.message),
                         Ev.setLoading false]
              outcome := Outcome.failed FailKind.processorPresentError paymentError.message
              alert := some (paymentFailedAlert paymentError.message) }
          | none =>
            if resp.success && resp.hasData then
              { events := [Ev.setLoading true, Ev.fetchIntent (totalPrice cart),
                           Ev.initSheet clientSecret "Your App Name",
                           Ev.presentSheet,
                           Ev.createOrder (buildOrderData cart clientSecret),
                           Ev.showAlert orderPlacedAlert,
                           Ev.setLoading false]
                outcome := Outcome.succeeded
                alert := some orderPlacedAlert }
            else
              { events := [Ev.setLoading true, Ev.fetchIntent (totalPrice cart),
                           Ev.initSheet clientSecret "Your App Name",
                           Ev.presentSheet,
                           Ev.createOrder (buildOrderData cart clientSecret),
                           Ev.showAlert (checkoutFailedAlert
                             (if resp.message = "" then "Failed to place order." else resp.message)),
                           Ev.setLoading false]
                outcome := Outcome.failed FailKind.orderPersistError
                  (if resp.message = "" then "Failed to place order." else resp.message)
                alert := some (checkoutFailedAlert
                  (if resp.message = "" then "Failed to place order." else resp.message)) }

/-- The checkout button of CartPage.js carries `disabled={loading}`: a
press while `loading` is true is ignored; otherwise it runs
`handleCheckout`. -/
def pressCheckout (loading : Bool) (intentRes : Option String)
    (initRes : Option StripeError) (presentRes : Option StripeError)
    (resp : OrderResponse) (cart : List CartItem) : Option CheckoutResult :=
  if loading then none
  else some (handleCheckout intentRes initRes presentRes resp cart)

/-- Number of events of trace `l` satisfying `p`. -/
def countEv (p : Ev → Bool) (l : List Ev) : Nat :=
  (l.filter p).length

/-- Recognizes `api.createOrder` calls. -/
def isCreateOrder : Ev → Bool
  | Ev.createOrder _ => true
  | _ => false

/-- Recognizes payment-intent-provider calls. -/
def isFetchIntent : Ev → Bool
  | Ev.fetchIntent _ => true
  | _ => false

/-- Recognizes alert displays. -/
def isShowAlert : Ev → Bool
  | Ev.showAlert _ => true
  | _ => false

/-- Recognizes `clearCart()` calls. -/
def isClearEv : Ev → Bool
  | Ev.clearCartEv => true
  | _ => false

/-- Recognizes `setLoading(false)` writes. -/
def isSetLoadingFalse : Ev → Bool
  | Ev.setLoading b => !b
  | _ => false

/-- Maps a callback effect to the observable events it performs
(hiding the alert performs none of the tracked calls). -/
def effToEvs : Effect → List Ev
  | Effect.hideAlert => []
  | Effect.clearCartEff => [Ev.clearCartEv]
  | Effect.navigateEff s => [Ev.navigateEv s]

/-- The effect list of the first (and in CartPage.js only) button of the
alert a checkout attempt left visible. -/
def firstButtonEffects (r : CheckoutResult) : List Effect :=
  match r.alert with
  | some a =>
    match a.buttons with
    | b :: _ => b.effects
    | [] => []
  | none => []

/-- The full observable trace of an attempt followed by the user pressing
the displayed alert button: attempt events, then the events performed by
the button callback. -/
def afterOkTrace (r : CheckoutResult) : List Ev :=
  r.events ++ ((firstButtonEffects r).map effToEvs).flatten

/-- UI-level state acted on by alert callbacks: the cart held by
CartContext, the alert-visibility flag, and the navigation history. -/
structure UIState where
  cart : List CartItem
  alertVisible : Bool
  nav : List String
deriving DecidableEq, Repr

/-- Runs one callback effect on the UI state. -/
def applyEffect (st : UIState) : Effect → UIState
  | Effect.hideAlert => { st with alertVisible := false }
  | Effect.clearCartEff => { st with cart := [] }
  | Effect.navigateEff s => { st with nav := st.nav ++ [s] }

/-- Runs a callback effect list left to right. -/
def applyEffects (st : UIState) (es : List Effect) : UIState :=
  es.foldl applyEffect st

/-- Modelled from the spec: the CartContext `addToCart` implementation is
not among the provided source files (only its callers are).  Per the spec,
`add(item) -> bool` inserts if `id` not present and returns whether
insertion occurred; the cart is ordered by insertion and keyed by id. -/
def addToCart (cart : List CartItem) (item : CartItem) : Bool × List CartItem :=
  if cart.any (fun c => c.idStr = item.idStr) then (false, cart)
  else (true, cart ++ [item])

/-- The `handleAddToCart` function of MarketPage.js (lines 168-186): calls
`addToCart(item)` and presents a Success alert when it returned true, else
an informational already-in-cart alert; both close with a single OK
button. -/
def handleAddToCart (cart : List CartItem) (item : CartItem) :
    List CartItem × AlertCfg :=
  let res := addToCart cart item
  (res.2,
   if res.1 then
     { title := "Success"
       message := item.name ++ " has been added to your cart."
       icon := "cart"
       buttons := okDismiss
       onCloseEffects := [Effect.hideAlert] }
   else
     { title := "Info"
       message := item.name ++ " is already in your cart."
       icon := "information-circle"
       buttons := okDismiss
       onCloseEffects := [Effect.hideAlert] })

/-- A sample cart item used by concrete witnesses. -/
def itemA : CartItem :=
  { idStr := "p1", name := "CCNA Bundle", examName := "CCNA",
    subjectName := "Networking", subjectCode := "NET1",
    price := 10, image := "img1" }

/-- A second sample cart item. -/
def itemB : CartItem :=
  { idStr := "p2", name := "CCNP Bundle", examName := "CCNP",
    subjectName := "Networking", subjectCode := "NET2",
    price := (2499 : Rat) / 100, image := "img2" }

/-- An order-API response with `success:true` and data present. -/
def respOk : OrderResponse :=
  { success := true, hasData := true, message := "" }

/-- An order-API response with `success:false` and a message. -/
def respFail : OrderResponse :=
  { success := false, hasData := false, message := "duplicate order" }

/-- Claim C4: a checkout initiated with an empty cart snapshot fails
immediately with kind EmptyCart (the Cart Empty alert is shown and the
attempt returns), and the payment-intent provider is invoked zero times:
no network call is made. -/
theorem c4_empty_cart_no_network (intentRes : Option String)
    (initRes presentRes : Option StripeError) (resp : OrderResponse) :
    handleCheckout intentRes initRes presentRes resp [] =
      { events := [Ev.setLoading true, Ev.showAlert emptyCartAlert, Ev.setLoading false]
        outcome := Outcome.failed FailKind.emptyCart
          "Your cart is empty. Add items before checkout."
        alert := some emptyCartAlert } ∧
    countEv isFetchIntent (handleCheckout intentRes initRes presentRes resp []).events = 0 := by
  exact ⟨rfl, rfl⟩

/-- Claim C1: every order draft submitted to the order API carries
`isPaid=true` and `paidAt` set, and such a submission happens only after
the processor presentation step returned without error (the
`presentPaymentSheet` call occurs strictly earlier in the trace and its
result carried no error); on a fully successful checkout the
order-creation call is made exactly once, with `isPaid=true`. -/
theorem c1_paid_only_after_present (intentRes : Option String)
    (initRes presentRes : Option StripeError) (resp : OrderResponse)
    (cart : List CartItem) :
    (∀ d, Ev.createOrder d ∈ (handleCheckout intentRes initRes presentRes resp cart).events →
      d.isPaid = true ∧ d.paidAtSet = true ∧ presentRes = none ∧
      ∃ j k, j < k ∧
        (handleCheckout intentRes initRes presentRes resp cart).events.get? j =
          some Ev.presentSheet ∧
        (handleCheckout intentRes initRes presentRes resp cart).events.get? k =
          some (Ev.createOrder d)) ∧
    (∀ s, cart ≠ [] → intentRes = some s → s ≠ "" → initRes = none →
      presentRes = none → resp.success = true → resp.hasData = true →
      countEv isCreateOrder (handleCheckout intentRes initRes presentRes resp cart).events = 1 ∧
      (handleCheckout intentRes initRes presentRes resp cart).events.get? 4 =
        some (Ev.createOrder (buildOrderData cart s)) ∧
      (buildOrderData cart s).isPaid = true) := by
  constructor
  · intro d hd
    rcases cart with _ | ⟨a, cart⟩
    · simp [handleCheckout] at hd
    rcases intentRes with _ | s
    · simp [handleCheckout] at hd
    by_cases hs : s = ""
    · subst hs
      simp [handleCheckout] at hd
    rcases initRes with _ | e
    · rcases presentRes with _ | e
      · by_cases hr : resp.success && resp.hasData
        · have he : (handleCheckout (some s) none none resp (a :: cart)).events =
              [Ev.setLoading true, Ev.fetchIntent (totalPrice (a :: cart)),
               Ev.initSheet s "Your App Name", Ev.presentSheet,
               Ev.createOrder (buildOrderData (a :: cart) s),
               Ev.showAlert orderPlacedAlert, Ev.setLoading false] := by
            simp [handleCheckout, hs, hr]
          rw [he] at hd
          simp at hd
          subst hd
          exact ⟨rfl, rfl, rfl, 3, 4, by norm_num, by rw [he]; rfl, by rw [he]; rfl⟩
        · have he : (handleCheckout (some s) none none resp (a :: cart)).events =
              [Ev.setLoading true, Ev.fetchIntent (totalPrice (a :: cart)),
               Ev.initSheet s "Your App Name", Ev.presentSheet,
               Ev.createOrder (buildOrderData (a :: cart) s),
               Ev.showAlert (checkoutFailedAlert
                 (if resp.message = "" then "Failed to place order." else resp.message)),
               Ev.setLoading false] := by
            simp [handleCheckout, hs, hr]
          rw [he] at hd
          simp at hd
          subst hd
          exact ⟨rfl, rfl, rfl, 3, 4, by norm_num, by rw [he]; rfl, by rw [he]; rfl⟩
      · simp [handleCheckout, hs] at hd
    · simp [handleCheckout, hs] at hd
  · intro s hcart hi hs hie hpe hsucc hdata
    subst hi hie hpe
    rcases cart with _ | ⟨a, cart⟩
    · exact absurd rfl hcart
    have hr : (resp.success && resp.hasData) = true := by rw [hsucc, hdata]; rfl
    have he : (handleCheckout (some s) none none resp (a :: cart)).events =
        [Ev.setLoading true, Ev.fetchIntent (totalPrice (a :: cart)),
         Ev.initSheet s "Your App Name", Ev.presentSheet,
         Ev.createOrder (buildOrderData (a :: cart) s),
         Ev.showAlert orderPlacedAlert, Ev.setLoading false] := by
      simp [handleCheckout, hs, hr]
    rw [he]
    exact ⟨rfl, rfl, rfl⟩

/-- Concrete instantiation of `c1_paid_only_after_present`: a one-item
cart, a valid secret, no SDK errors, a success response. -/
theorem c1_paid_only_after_present_witness :
    ((buildOrderData [itemA] "sec1").isPaid = true ∧
      (buildOrderData [itemA] "sec1").paidAtSet = true ∧
      (none : Option StripeError) = none ∧
      ∃ j k, j < k ∧
        (handleCheckout (some "sec1") none none respOk [itemA]).events.get? j =
          some Ev.presentSheet ∧
        (handleCheckout (some "sec1") none none respOk [itemA]).events.get? k =
          some (Ev.createOrder (buildOrderData [itemA] "sec1"))) ∧
    countEv isCreateOrder (handleCheckout (some "sec1") none none respOk [itemA]).events = 1 := by
  have h := c1_paid_only_after_present (some "sec1") none none respOk [itemA]
  exact ⟨h.1 (buildOrderData [itemA] "sec1") (by simp [handleCheckout, respOk]),
         (h.2 "sec1" (by decide) rfl (by decide) rfl rfl rfl rfl).1⟩

/-- Claim C2 as stated is false: in a fully successful concrete checkout,
the success notification (trace index 5) is displayed strictly before the
cart-clear action (trace index 7, inside the OK callback), so the terminal
actions do not occur in the order clear, navigate, notify. -/
theorem c2_counterexample :
    afterOkTrace (handleCheckout (some "sec1") none none respOk [itemA]) =
      [Ev.setLoading true, Ev.fetchIntent (totalPrice [itemA]),
       Ev.initSheet "sec1" "Your App Name",
       Ev.presentSheet, Ev.createOrder (buildOrderData [itemA] "sec1"),
       Ev.showAlert orderPlacedAlert, Ev.setLoading false,
       Ev.clearCartEv, Ev.navigateEv "PurchaseHistory"] ∧
    (afterOkTrace (handleCheckout (some "sec1") none none respOk [itemA])).indexOf
        (Ev.showAlert orderPlacedAlert) <
      (afterOkTrace (handleCheckout (some "sec1") none none respOk [itemA])).indexOf
        Ev.clearCartEv := by
  have he : afterOkTrace (handleCheckout (some "sec1") none none respOk [itemA]) =
      [Ev.setLoading true, Ev.fetchIntent (totalPrice [itemA]),
       Ev.initSheet "sec1" "Your App Name",
       Ev.presentSheet, Ev.createOrder (buildOrderData [itemA] "sec1"),
       Ev.showAlert orderPlacedAlert, Ev.setLoading false,
       Ev.clearCartEv, Ev.navigateEv "PurchaseHistory"] := by
    simp [afterOkTrace, handleCheckout, respOk, firstButtonEffects,
          orderPlacedAlert, effToEvs]
  refine ⟨he, ?_⟩
  rw [he]
  decide

/-- Claim C2 amended: on a successful checkout the success notification is
displayed first; clearing the cart and navigating to the order-history view
happen afterwards, inside the notification's OK action, in the order clear
then navigate; the order-persistence call precedes all of them.  Moreover
the cart is never cleared before the order is confirmed persisted: the only
alert whose button carries a clear-cart effect is the success alert, shown
only on a persisted order (the attempt itself never clears). -/
theorem c2_success_actions_order (s : String) (hs : s ≠ "")
    (resp : OrderResponse) (h1 : resp.success = true) (h2 : resp.hasData = true)
    (a : CartItem) (cart : List CartItem) :
    afterOkTrace (handleCheckout (some s) none none resp (a :: cart)) =
      [Ev.setLoading true, Ev.fetchIntent (totalPrice (a :: cart)),
       Ev.initSheet s "Your App Name", Ev.presentSheet,
       Ev.createOrder (buildOrderData (a :: cart) s),
       Ev.showAlert orderPlacedAlert, Ev.setLoading false,
       Ev.clearCartEv, Ev.navigateEv "PurchaseHistory"] ∧
    (∀ i ie pe rsp c,
      Effect.clearCartEff ∈ firstButtonEffects (handleCheckout i ie pe rsp c) →
      (handleCheckout i ie pe rsp c).outcome = Outcome.succeeded ∧
      countEv isCreateOrder (handleCheckout i ie pe rsp c).events = 1) := by
  constructor
  · have hr : (resp.success && resp.hasData) = true := by rw [h1, h2]; rfl
    have hres : handleCheckout (some s) none none resp (a :: cart) =
        { events := [Ev.setLoading true, Ev.fetchIntent (totalPrice (a :: cart)),
                     Ev.initSheet s "Your App Name", Ev.presentSheet,
                     Ev.createOrder (buildOrderData (a :: cart) s),
                     Ev.showAlert orderPlacedAlert, Ev.setLoading false]
          outcome := Outcome.succeeded
          alert := some orderPlacedAlert } := by
      simp [handleCheckout, hs, hr]
    rw [hres]
    rfl
  · intro i ie pe rsp c hmem
    rcases c with _ | ⟨b, c⟩
    · simp [handleCheckout, firstButtonEffects, emptyCartAlert, okDismiss] at hmem
    rcases i with _ | t
    · simp [handleCheckout, firstButtonEffects] at hmem
    by_cases ht : t = ""
    · subst ht
      simp [handleCheckout, firstButtonEffects] at hmem
    rcases ie with _ | e
    · rcases pe with _ | e
      · by_cases hr2 : rsp.success && rsp.hasData
        · have hres : handleCheckout (some t) none none rsp (b :: c) =
              { events := [Ev.setLoading true, Ev.fetchIntent (totalPrice (b :: c)),
                           Ev.initSheet t "Your App Name", Ev.presentSheet,
                           Ev.createOrder (buildOrderData (b :: c) t),
                           Ev.showAlert orderPlacedAlert, Ev.setLoading false]
                outcome := Outcome.succeeded
                alert := some orderPlacedAlert } := by
            simp [handleCheckout, ht, hr2]
          rw [hres]
          exact ⟨rfl, rfl⟩
        · have hres : handleCheckout (some t) none none rsp (b :: c) =
              { events := [Ev.setLoading true, Ev.fetchIntent (totalPrice (b :: c)),
                           Ev.initSheet t "Your App Name", Ev.presentSheet,
                           Ev.createOrder (buildOrderData (b :: c) t),
                           Ev.showAlert (checkoutFailedAlert
                             (if rsp.message = "" then "Failed to place order." else rsp.message)),
                           Ev.setLoading false]
                outcome := Outcome.failed FailKind.orderPersistError
                  (if rsp.message = "" then "Failed to place order." else rsp.message)
                alert := some (checkoutFailedAlert
                  (if rsp.message = "" then "Failed to place order." else rsp.message)) } := by
            simp [handleCheckout, ht, hr2]
          rw [hres] at hmem
          simp [firstButtonEffects, checkoutFailedAlert, okDismiss] at hmem
      · simp [handleCheckout, ht, firstButtonEffects, paymentFailedAlert, okDismiss] at hmem
    · simp [handleCheckout, ht, firstButtonEffects, paymentFailedAlert, okDismiss] at hmem

/-- Concrete instantiation of `c2_success_actions_order`. -/
theorem c2_success_actions_order_witness :
    afterOkTrace (handleCheckout (some "sec1") none none respOk [itemA]) =
      [Ev.setLoading true, Ev.fetchIntent (totalPrice [itemA]),
       Ev.initSheet "sec1" "Your App Name", Ev.presentSheet,
       Ev.createOrder (buildOrderData [itemA] "sec1"),
       Ev.showAlert orderPlacedAlert, Ev.setLoading false,
       Ev.clearCartEv, Ev.navigateEv "PurchaseHistory"] := by
  exact (c2_success_actions_order "sec1" (by decide) respOk rfl rfl itemA []).1

/-- Claim C3: a checkout attempt that ends in any failure state never
invokes `clearCart` — neither during the attempt (no clear event in the
trace) nor through the alert it leaves visible (every button of a failure
alert, and its `onClose`, only hides the alert) — so the cart contents are
unchanged; and when the failure kind precedes order persistence (empty
cart, intent unavailable, processor init or presentation error) the order
API is never called. -/
theorem c3_failure_preserves_cart (intentRes : Option String)
    (initRes presentRes : Option StripeError) (resp : OrderResponse)
    (cart : List CartItem) (k : FailKind) (m : String)
    (hout : (handleCheckout intentRes initRes presentRes resp cart).outcome =
      Outcome.failed k m) :
    countEv isClearEv (handleCheckout intentRes initRes presentRes resp cart).events = 0 ∧
    (∀ al, (handleCheckout intentRes initRes presentRes resp cart).alert = some al →
      (∀ b ∈ al.buttons, b.effects = [Effect.hideAlert]) ∧
      al.onCloseEffects = [Effect.hideAlert]) ∧
    (k = FailKind.emptyCart ∨ k = FailKind.intentUnavailable ∨
        k = FailKind.processorInitError ∨ k = FailKind.processorPresentError →
      countEv isCreateOrder (handleCheckout intentRes initRes presentRes resp cart).events = 0) := by
  rcases cart with _ | ⟨a, cart⟩
  · refine ⟨rfl, ?_, fun _ => rfl⟩
    intro al hal
    have : emptyCartAlert = al := by
      simpa [handleCheckout] using hal
    subst this
    exact ⟨by simp [emptyCartAlert, okDismiss], rfl⟩
  rcases intentRes with _ | s
  · exact ⟨rfl, by intro al hal; simp [handleCheckout] at hal, fun _ => rfl⟩
  by_cases hs : s = ""
  · subst hs
    exact ⟨rfl, by intro al hal; simp [handleCheckout] at hal, fun _ => rfl⟩
  rcases initRes with _ | e
  · rcases presentRes with _ | e
    · by_cases hr : resp.success && resp.hasData
      · have : (handleCheckout (some s) none none resp (a :: cart)).outcome =
            Outcome.succeeded := by
          simp [handleCheckout, hs, hr]
        rw [this] at hout
        exact absurd hout (by simp)
      · have hres : handleCheckout (some s) none none resp (a :: cart) =
            { events := [Ev.setLoading true, Ev.fetchIntent (totalPrice (a :: cart)),
                         Ev.initSheet s "Your App Name", Ev.presentSheet,
                         Ev.createOrder (buildOrderData (a :: cart) s),
                         Ev.showAlert (checkoutFailedAlert
                           (if resp.message = "" then "Failed to place order." else resp.message)),
                         Ev.setLoading false]
              outcome := Outcome.failed FailKind.orderPersistError
                (if resp.message = "" then "Failed to place order." else resp.message)
              alert := some (checkoutFailedAlert
                (if resp.message = "" then "Failed to place order." else resp.message)) } := by
          simp [handleCheckout, hs, hr]
        rw [hres] at hout ⊢
        have hk : k = FailKind.orderPersistError := by
          cases hout
          rfl
        subst hk
        refine ⟨rfl, ?_, ?_⟩
        · intro al hal
          have : checkoutFailedAlert
              (if resp.message = "" then "Failed to place order." else resp.message) = al := by
            simpa using hal
          subst this
          exact ⟨by simp [checkoutFailedAlert, okDismiss], rfl⟩
        · intro hdisj
          rcases hdisj with h | h | h | h <;> exact absurd h (by simp)
    · have hres : handleCheckout (some s) none (some e) resp (a :: cart) =
          { events := [Ev.setLoading true, Ev.fetchIntent (totalPrice (a :: cart)),
                       Ev.initSheet s "Your App Name", Ev.presentSheet,
                       Ev.showAlert (paymentFailedAlert e.message),
                       Ev.setLoading false]
            outcome := Outcome.failed FailKind.processorPresentError e.message
            alert := some (paymentFailedAlert e.message) } := by
        simp [handleCheckout, hs]
      rw [hres]
      refine ⟨rfl, ?_, fun _ => rfl⟩
      intro al hal
      have : paymentFailedAlert e.message = al := by
        simpa using hal
      subst this
      exact ⟨by simp [paymentFailedAlert, okDismiss], rfl⟩
  · have hres : handleCheckout (some s) (some e) presentRes resp (a :: cart) =
        { events := [Ev.setLoading true, Ev.fetchIntent (totalPrice (a :: cart)),
                     Ev.initSheet s "Your App Name",
                     Ev.showAlert (paymentFailedAlert e.message),
                     Ev.setLoading false]
          outcome := Outcome.failed FailKind.processorInitError e.message
          alert := some (paymentFailedAlert e.message) } := by
      simp [handleCheckout, hs]
    rw [hres]
    refine ⟨rfl, ?_, fun _ => rfl⟩
    intro al hal
    have : paymentFailedAlert e.message = al := by
      simpa using hal
    subst this
    exact ⟨by simp [paymentFailedAlert, okDismiss], rfl⟩

/-- Concrete instantiation of `c3_failure_preserves_cart` at a processor
init error on a one-item cart. -/
theorem c3_failure_preserves_cart_witness :
    countEv isClearEv (handleCheckout (some "sec1")
      (some { code := "Failed", message := "card declined" }) none respOk [itemA]).events = 0 ∧
    countEv isCreateOrder (handleCheckout (some "sec1")
      (some { code := "Failed", message := "card declined" }) none respOk [itemA]).events = 0 := by
  have h := c3_failure_preserves_cart (some "sec1")
    (some { code := "Failed", message := "card declined" }) none respOk [itemA]
    FailKind.processorInitError "card declined" (by simp [handleCheckout])
  exact ⟨h.1, h.2.2 (Or.inr (Or.inr (Or.inl rfl)))⟩

/-- Claim C6: the loading flag is set before cart validation (the first
event of every attempt trace is `setLoading true`) and cleared in every
exit path (the last event of every attempt trace is `setLoading false`, and
it is the only `setLoading false` write, so the flag stays set for the
whole attempt); a checkout trigger while an attempt is in flight is
ignored by the `disabled={loading}` guard, so it contributes no
order-persistence call; and a single attempt makes at most one
order-persistence call — hence at most one across the two triggers. -/
theorem c6_loading_flag_guard (intentRes : Option String)
    (initRes presentRes : Option StripeError) (resp : OrderResponse)
    (cart : List CartItem) :
    (handleCheckout intentRes initRes presentRes resp cart).events.head? =
      some (Ev.setLoading true) ∧
    (handleCheckout intentRes initRes presentRes resp cart).events.getLast? =
      some (Ev.setLoading false) ∧
    countEv isSetLoadingFalse (handleCheckout intentRes initRes presentRes resp cart).events = 1 ∧
    pressCheckout true intentRes initRes presentRes resp cart = none ∧
    countEv isCreateOrder (handleCheckout intentRes initRes presentRes resp cart).events ≤ 1 := by
  rcases cart with _ | ⟨a, cart⟩
  · exact ⟨rfl, rfl, rfl, rfl, Nat.zero_le 1⟩
  rcases intentRes with _ | s
  · exact ⟨rfl, rfl, rfl, rfl, Nat.zero_le 1⟩
  by_cases hs : s = ""
  · subst hs
    exact ⟨rfl, rfl, rfl, rfl, Nat.zero_le 1⟩
  rcases initRes with _ | e
  · rcases presentRes with _ | e
    · by_cases hr : resp.success && resp.hasData
      · have hres : handleCheckout (some s) none none resp (a :: cart) =
            { events := [Ev.setLoading true, Ev.fetchIntent (totalPrice (a :: cart)),
                         Ev.initSheet s "Your App Name", Ev.presentSheet,
                         Ev.createOrder (buildOrderData (a :: cart) s),
                         Ev.showAlert orderPlacedAlert, Ev.setLoading false]
              outcome := Outcome.succeeded
              alert := some orderPlacedAlert } := by
          simp [handleCheckout, hs, hr]
        rw [hres]
        exact ⟨rfl, rfl, rfl, by simp [pressCheckout], Nat.le_refl 1⟩
      · have hres : handleCheckout (some s) none none resp (a :: cart) =
            { events := [Ev.setLoading true, Ev.fetchIntent (totalPrice (a :: cart)),
                         Ev.initSheet s "Your App Name", Ev.presentSheet,
                         Ev.createOrder (buildOrderData (a :: cart) s),
                         Ev.showAlert (checkoutFailedAlert
                           (if resp.message = "" then "Failed to place order." else resp.message)),
                         Ev.setLoading false]
              outcome := Outcome.failed FailKind.orderPersistError
                (if resp.message = "" then "Failed to place order." else resp.message)
              alert := some (checkoutFailedAlert
                (if resp.message = "" then "Failed to place order." else resp.message)) } := by
          simp [handleCheckout, hs, hr]
        rw [hres]
        exact ⟨rfl, rfl, rfl, by simp [pressCheckout], Nat.le_refl 1⟩
    · have hres : (handleCheckout (some s) none (some e) resp (a :: cart)).events =
          [Ev.setLoading true, Ev.fetchIntent (totalPrice (a :: cart)),
           Ev.initSheet s "Your App Name", Ev.presentSheet,
           Ev.showAlert (paymentFailedAlert e.message), Ev.setLoading false] := by
        simp [handleCheckout, hs]
      rw [hres]
      exact ⟨rfl, rfl, rfl, by simp [pressCheckout], Nat.zero_le 1⟩
  · have hres : (handleCheckout (some s) (some e) presentRes resp (a :: cart)).events =
        [Ev.setLoading true, Ev.fetchIntent (totalPrice (a :: cart)),
         Ev.initSheet s "Your App Name",
         Ev.showAlert (paymentFailedAlert e.message), Ev.setLoading false] := by
      simp [handleCheckout, hs]
    rw [hres]
    exact ⟨rfl, rfl, rfl, by simp [pressCheckout], Nat.zero_le 1⟩

/-- Claim C7 as stated is false: on a non-empty cart with the intent
provider returning null, the attempt ends in the IntentUnavailable failure
kind but no notification is displayed — the trace contains zero alert
displays and no alert is left visible, so not every failure kind is
surfaced to the user by the checkout pipeline. -/
theorem c7_counterexample :
    (handleCheckout none none none respOk [itemA]).outcome =
      Outcome.failed FailKind.intentUnavailable "" ∧
    countEv isShowAlert (handleCheckout none none none respOk [itemA]).events = 0 ∧
    (handleCheckout none none none respOk [itemA]).alert = none := by
  exact ⟨rfl, rfl, rfl⟩

/-- Claim C7 amended: failures at processor initialization, processor
presentation, and order persistence each display a notification carrying
the failure message verbatim — for the two processor kinds the message is
the SDK error message, and for order persistence it is the response message
where non-empty, else the generic fallback; an intent-unavailable failure
displays no notification from the checkout handler (the provider's own
error reporting is its responsibility), and the empty-cart failure shows
the Cart Empty alert. -/
theorem c7_failure_reporting (intentRes : Option String)
    (initRes presentRes : Option StripeError) (resp : OrderResponse)
    (cart : List CartItem) (k : FailKind) (m : String)
    (hout : (handleCheckout intentRes initRes presentRes resp cart).outcome =
      Outcome.failed k m) :
    (k = FailKind.processorInitError →
      (∃ e, initRes = some e ∧ m = e.message) ∧
      (handleCheckout intentRes initRes presentRes resp cart).alert =
        some (paymentFailedAlert m) ∧
      Ev.showAlert (paymentFailedAlert m) ∈
        (handleCheckout intentRes initRes presentRes resp cart).events) ∧
    (k = FailKind.processorPresentError →
      (∃ e, presentRes = some e ∧ m = e.message) ∧
      (handleCheckout intentRes initRes presentRes resp cart).alert =
        some (paymentFailedAlert m) ∧
      Ev.showAlert (paymentFailedAlert m) ∈
        (handleCheckout intentRes initRes presentRes resp cart).events) ∧
    (k = FailKind.orderPersistError →
      m = (if resp.message = "" then "Failed to place order." else resp.message) ∧
      (handleCheckout intentRes initRes presentRes resp cart).alert =
        some (checkoutFailedAlert m) ∧
      Ev.showAlert (checkoutFailedAlert m) ∈
        (handleCheckout intentRes initRes presentRes resp cart).events) ∧
    (k = FailKind.intentUnavailable →
      (handleCheckout intentRes initRes presentRes resp cart).alert = none ∧
      countEv isShowAlert (handleCheckout intentRes initRes presentRes resp cart).events = 0) ∧
    (k = FailKind.emptyCart →
      (handleCheckout intentRes initRes presentRes resp cart).alert =
        some emptyCartAlert ∧
      Ev.showAlert emptyCartAlert ∈
        (handleCheckout intentRes initRes presentRes resp cart).events) := by
  rcases cart with _ | ⟨a, cart⟩
  · have hk : FailKind.emptyCart = k := by
      cases hout
      rfl
    subst hk
    refine ⟨fun h => absurd h (by simp), fun h => absurd h (by simp),
            fun h => absurd h (by simp), fun h => absurd h (by simp),
            fun _ => ⟨rfl, by simp [handleCheckout]⟩⟩
  rcases intentRes with _ | s
  · have hk : FailKind.intentUnavailable = k := by
      cases hout
      rfl
    subst hk
    exact ⟨fun h => absurd h (by simp), fun h => absurd h (by simp),
           fun h => absurd h (by simp), fun _ => ⟨rfl, rfl⟩,
           fun h => absurd h (by simp)⟩
  by_cases hs : s = ""
  · subst hs
    have hk : FailKind.intentUnavailable = k := by
      cases hout
      rfl
    subst hk
    exact ⟨fun h => absurd h (by simp), fun h => absurd h (by simp),
           fun h => absurd h (by simp), fun _ => ⟨rfl, rfl⟩,
           fun h => absurd h (by simp)⟩
  rcases initRes with _ | e
  · rcases presentRes with _ | e
    · by_cases hr : resp.success && resp.hasData
      · have : (handleCheckout (some s) none none resp (a :: cart)).outcome =
            Outcome.succeeded := by
          simp [handleCheckout, hs, hr]
        rw [this] at hout
        exact absurd hout (by simp)
      · have hres : handleCheckout (some s) none none resp (a :: cart) =
            { events := [Ev.setLoading true, Ev.fetchIntent (totalPrice (a :: cart)),
                         Ev.initSheet s "Your App Name", Ev.presentSheet,
                         Ev.createOrder (buildOrderData (a :: cart) s),
                         Ev.showAlert (checkoutFailedAlert
                           (if resp.message = "" then "Failed to place order." else resp.message)),
                         Ev.setLoading false]
              outcome := Outcome.failed FailKind.orderPersistError
                (if resp.message = "" then "Failed to place order." else resp.message)
              alert := some (checkoutFailedAlert
                (if resp.message = "" then "Failed to place order." else resp.message)) } := by
          simp [handleCheckout, hs, hr]
        rw [hres] at hout ⊢
        obtain ⟨hk, hm⟩ : FailKind.orderPersistError = k ∧
            (if resp.message = "" then "Failed to place order." else resp.message) = m := by
          cases hout
          exact ⟨rfl, rfl⟩
        subst hk
        subst hm
        refine ⟨fun h => absurd h (by simp), fun h => absurd h (by simp),
                fun _ => ⟨rfl, rfl, by simp⟩,
                fun h => absurd h (by simp), fun h => absurd h (by simp)⟩
    · have hres : handleCheckout (some s) none (some e) resp (a :: cart) =
          { events := [Ev.setLoading true, Ev.fetchIntent (totalPrice (a :: cart)),
                       Ev.initSheet s "Your App Name", Ev.presentSheet,
                       Ev.showAlert (paymentFailedAlert e.message),
                       Ev.setLoading false]
            outcome := Outcome.failed FailKind.processorPresentError e.message
            alert := some (paymentFailedAlert e.message) } := by
        simp [handleCheckout, hs]
      rw [hres] at hout ⊢
      obtain ⟨hk, hm⟩ : FailKind.processorPresentError = k ∧ e.message = m := by
        cases hout
        exact ⟨rfl, rfl⟩
      subst hk
      subst hm
      refine ⟨fun h => absurd h (by simp), fun _ => ⟨⟨e, rfl, rfl⟩, rfl, by simp⟩,
              fun h => absurd h (by simp), fun h => absurd h (by simp),
              fun h => absurd h (by simp)⟩
  · have hres : handleCheckout (some s) (some e) presentRes resp (a :: cart) =
        { events := [Ev.setLoading true, Ev.fetchIntent (totalPrice (a :: cart)),
                     Ev.initSheet s "Your App Name",
                     Ev.showAlert (paymentFailedAlert e.message),
                     Ev.setLoading false]
          outcome := Outcome.failed FailKind.processorInitError e.message
          alert := some (paymentFailedAlert e.message) } := by
      simp [handleCheckout, hs]
    rw [hres] at hout ⊢
    obtain ⟨hk, hm⟩ : FailKind.processorInitError = k ∧ e.message = m := by
      cases hout
      exact ⟨rfl, rfl⟩
    subst hk
    subst hm
    refine ⟨fun _ => ⟨⟨e, rfl, rfl⟩, rfl, by simp⟩, fun h => absurd h (by simp),
            fun h => absurd h (by simp), fun h => absurd h (by simp),
            fun h => absurd h (by simp)⟩

/-- Concrete instantiation of `c7_failure_reporting` at a persist failure
with a non-empty response message. -/
theorem c7_failure_reporting_witness :
    "duplicate order" =
      (if respFail.message = "" then "Failed to place order." else respFail.message) ∧
    (handleCheckout (some "sec1") none none respFail [itemA]).alert =
      some (checkoutFailedAlert "duplicate order") ∧
    Ev.showAlert (checkoutFailedAlert "duplicate order") ∈
      (handleCheckout (some "sec1") none none respFail [itemA]).events := by
  exact (c7_failure_reporting (some "sec1") none none respFail [itemA]
    FailKind.orderPersistError "duplicate order"
    (by simp [handleCheckout, respFail])).2.2.1 rfl

/-- Claim C8: every error returned by the payment-sheet presentation step
drives the checkout to the single failure kind ProcessorPresentError
carrying the SDK error message, with the Payment Failed alert showing that
message; the handling depends only on the error message, never on the
error code, so a user-cancellation error is not distinguished from any
other presentation error. -/
theorem c8_present_error_uniform (s : String) (hs : s ≠ "")
    (e : StripeError) (resp : OrderResponse) (a : CartItem)
    (cart : List CartItem) :
    (handleCheckout (some s) none (some e) resp (a :: cart)).outcome =
      Outcome.failed FailKind.processorPresentError e.message ∧
    (handleCheckout (some s) none (some e) resp (a :: cart)).alert =
      some (paymentFailedAlert e.message) ∧
    (∀ e2 : StripeError, e2.message = e.message →
      handleCheckout (some s) none (some e2) resp (a :: cart) =
        handleCheckout (some s) none (some e) resp (a :: cart)) := by
  have hres : ∀ e3 : StripeError,
      handleCheckout (some s) none (some e3) resp (a :: cart) =
        { events := [Ev.setLoading true, Ev.fetchIntent (totalPrice (a :: cart)),
                     Ev.initSheet s "Your App Name", Ev.presentSheet,
                     Ev.showAlert (paymentFailedAlert e3.message),
                     Ev.setLoading false]
          outcome := Outcome.failed FailKind.processorPresentError e3.message
          alert := some (paymentFailedAlert e3.message) } := by
    intro e3
    simp [handleCheckout, hs]
  refine ⟨by rw [hres e], by rw [hres e], ?_⟩
  intro e2 hm
  rw [hres e, hres e2, hm]

/-- Concrete instantiation of `c8_present_error_uniform`: a cancellation
error and a generic failure with the same message yield identical checkout
results. -/
theorem c8_present_error_uniform_witness :
    (handleCheckout (some "sec1") none
      (some { code := "Canceled", message := "The payment was canceled." })
      respOk [itemA]).outcome =
      Outcome.failed FailKind.processorPresentError "The payment was canceled." ∧
    handleCheckout (some "sec1") none
      (some { code := "Failed", message := "The payment was canceled." })
      respOk [itemA] =
    handleCheckout (some "sec1") none
      (some { code := "Canceled", message := "The payment was canceled." })
      respOk [itemA] := by
  have h := c8_present_error_uniform "sec1" (by decide)
    { code := "Canceled", message := "The payment was canceled." } respOk itemA []
  exact ⟨h.1, h.2.2 { code := "Failed", message := "The payment was canceled." } rfl⟩

/-- Claim C9: adding an item to any cart and then adding an item with the
same id leaves the collection size unchanged and the second add returns
false; MarketPage.js presents that false result as an informational
already-in-cart alert (title Info, information icon), not as an error. -/
theorem c9_duplicate_add (cart : List CartItem) (item item2 : CartItem)
    (hid : item2.idStr = item.idStr) :
    (addToCart (addToCart cart item).2 item2).1 = false ∧
    (addToCart (addToCart cart item).2 item2).2.length =
      (addToCart cart item).2.length ∧
    (handleAddToCart (addToCart cart item).2 item2).1 =
      (addToCart cart item).2 ∧
    (handleAddToCart (addToCart cart item).2 item2).2.title = "Info" ∧
    (handleAddToCart (addToCart cart item).2 item2).2.icon =
      "information-circle" ∧
    (handleAddToCart (addToCart cart item).2 item2).2.message =
      item2.name ++ " is already in your cart." := by
  have hmem : (addToCart cart item).2.any (fun c => c.idStr = item2.idStr) = true := by
    rw [hid]
    unfold addToCart
    by_cases h : cart.any (fun c => c.idStr = item.idStr)
    · simp [h]
    · simp [h]
  have hadd : addToCart (addToCart cart item).2 item2 =
      (false, (addToCart cart item).2) := by
    have hu : addToCart (addToCart cart item).2 item2 =
        if (addToCart cart item).2.any (fun c => c.idStr = item2.idStr) then
          (false, (addToCart cart item).2)
        else (true, (addToCart cart item).2 ++ [item2]) := rfl
    rw [hu, if_pos hmem]
  have hpres : handleAddToCart (addToCart cart item).2 item2 =
      ((addToCart cart item).2,
       { title := "Info"
         message := item2.name ++ " is already in your cart."
         icon := "information-circle"
         buttons := okDismiss
         onCloseEffects := [Effect.hideAlert] }) := by
    unfold handleAddToCart
    rw [hadd]
    rfl
  rw [hadd, hpres]
  exact ⟨rfl, rfl, rfl, rfl, rfl, rfl⟩

/-- Concrete instantiation of `c9_duplicate_add`: itemA added twice to an
initially empty cart. -/
theorem c9_duplicate_add_witness :
    (addToCart (addToCart [] itemA).2 itemA).1 = false ∧
    (addToCart (addToCart [] itemA).2 itemA).2.length =
      (addToCart [] itemA).2.length ∧
    (handleAddToCart (addToCart [] itemA).2 itemA).2.title = "Info" := by
  have h := c9_duplicate_add [] itemA itemA rfl
  exact ⟨h.1, h.2.1, h.2.2.2.1⟩

/-- Claim C10 (implicit): on the success path the order is already
persisted as paid and the success notification is left visible, but the
attempt itself performs no clear and no navigation; clearing the cart and
navigating to purchase history happen only by running the OK button
callback (hide, then clear, then navigate), while running the onClose
callback instead only hides the alert — the cart keeps its contents and no
navigation occurs. -/
theorem c10_ok_callback_only (s : String) (hs : s ≠ "") (resp : OrderResponse)
    (h1 : resp.success = true) (h2 : resp.hasData = true)
    (a : CartItem) (cart : List CartItem) (nav : List String) :
    (handleCheckout (some s) none none resp (a :: cart)).alert =
      some orderPlacedAlert ∧
    Ev.createOrder (buildOrderData (a :: cart) s) ∈
      (handleCheckout (some s) none none resp (a :: cart)).events ∧
    (buildOrderData (a :: cart) s).isPaid = true ∧
    countEv isClearEv (handleCheckout (some s) none none resp (a :: cart)).events = 0 ∧
    (∀ t, Ev.navigateEv t ∉ (handleCheckout (some s) none none resp (a :: cart)).events) ∧
    applyEffects { cart := a :: cart, alertVisible := true, nav := nav }
        orderPlacedAlert.onCloseEffects =
      { cart := a :: cart, alertVisible := false, nav := nav } ∧
    applyEffects { cart := a :: cart, alertVisible := true, nav := nav }
        (firstButtonEffects (handleCheckout (some s) none none resp (a :: cart))) =
      { cart := [], alertVisible := false, nav := nav ++ ["PurchaseHistory"] } := by
  have hr : (resp.success && resp.hasData) = true := by rw [h1, h2]; rfl
  have hres : handleCheckout (some s) none none resp (a :: cart) =
      { events := [Ev.setLoading true, Ev.fetchIntent (totalPrice (a :: cart)),
                   Ev.initSheet s "Your App Name", Ev.presentSheet,
                   Ev.createOrder (buildOrderData (a :: cart) s),
                   Ev.showAlert orderPlacedAlert, Ev.setLoading false]
        outcome := Outcome.succeeded
        alert := some orderPlacedAlert } := by
    simp [handleCheckout, hs, hr]
  rw [hres]
  refine ⟨rfl, by simp, rfl, rfl, ?_, rfl, rfl⟩
  intro t
  simp

/-- Concrete instantiation of `c10_ok_callback_only`. -/
theorem c10_ok_callback_only_witness :
    (handleCheckout (some "sec1") none none respOk [itemA]).alert =
      some orderPlacedAlert ∧
    applyEffects { cart := [itemA], alertVisible := true, nav := [] }
        orderPlacedAlert.onCloseEffects =
      { cart := [itemA], alertVisible := false, nav := [] } ∧
    applyEffects { cart := [itemA], alertVisible := true, nav := [] }
        (firstButtonEffects (handleCheckout (some "sec1") none none respOk [itemA])) =
      { cart := [], alertVisible := false, nav := ["PurchaseHistory"] } := by
  have h := c10_ok_callback_only "sec1" (by decide) respOk rfl rfl itemA [] []
  exact ⟨h.1, h.2.2.2.2.2.1, h.2.2.2.2.2.2⟩
